import Mathlib

/-!
Verification development for the TEM_Agent training server.

We shallowly embed the room state and the game-logic operations of
`game_logic.py` and `app_web.py`: Python dicts become association lists
(insertion-ordered, overwrite-on-assign), Python sets become duplicate-free
lists with membership-guarded insertion, fallible code (uncaught `KeyError` /
`AttributeError`) is modelled by an explicit `errored` outcome that leaves
exactly the state mutated before the raising line.
-/

namespace TEM

/-! ### Association-list helpers modelling Python dicts and sets -/

/-- Lookup in an insertion-ordered dict (`d[k]` / `d.get(k)`). -/
def alookup {α : Type} : List (String × α) → String → Option α
  | [], _ => none
  | p :: rest, k => if p.1 = k then some p.2 else alookup rest k

/-- Dict assignment `d[k] = v`: overwrite in place if the key exists,
otherwise append (Python dicts preserve insertion order). -/
def setKey {α : Type} : List (String × α) → String → α → List (String × α)
  | [], k, v => [(k, v)]
  | p :: rest, k, v => if p.1 = k then (k, v) :: rest else p :: setKey rest k v

/-- Python `set.add`: insert unless already a member. -/
def insertSet {α : Type} [DecidableEq α] (x : α) (s : List α) : List α :=
  if x ∈ s then s else s ++ [x]

theorem mem_insertSet_self {α : Type} [DecidableEq α] (x : α) (s : List α) :
    x ∈ insertSet x s := by
  unfold insertSet
  split
  · assumption
  · simp

theorem insertSet_idem {α : Type} [DecidableEq α] (x : α) (s : List α) :
    insertSet x (insertSet x s) = insertSet x s := by
  unfold insertSet
  split
  · simp_all
  · simp

theorem alookup_append_right {α : Type} (l : List (String × α)) (k : String)
    (v : α) (h : alookup l k = none) :
    alookup (l ++ [(k, v)]) k = some v := by
  induction l with
  | nil => simp [alookup]
  | cons p rest ih =>
      simp only [alookup, List.cons_append] at *
      split at h
      · exact absurd h (by simp)
      · rw [if_neg (by assumption)]
        exact ih h

theorem alookup_append_of_some {α : Type} (l m : List (String × α))
    (k : String) (v : α) (h : alookup l k = some v) :
    alookup (l ++ m) k = some v := by
  induction l with
  | nil => simp [alookup] at h
  | cons p rest ih =>
      simp only [alookup, List.cons_append] at *
      split at h
      · rw [if_pos (by assumption)]
        exact h
      · rw [if_neg (by assumption)]
        exact ih h

theorem alookup_append_ne {α : Type} (l : List (String × α)) (k k2 : String)
    (v : α) (hne : k2 ≠ k) :
    alookup (l ++ [(k2, v)]) k = alookup l k := by
  induction l with
  | nil => simp [alookup, hne]
  | cons p rest ih =>
      simp only [alookup, List.cons_append]
      split
      · rfl
      · exact ih

theorem alookup_setKey_ne {α : Type} (l : List (String × α)) (k k2 : String)
    (v : α) (hne : k2 ≠ k) :
    alookup (setKey l k2 v) k = alookup l k := by
  induction l with
  | nil => simp [alookup, setKey, hne]
  | cons p rest ih =>
      simp only [setKey]
      by_cases hp : p.1 = k2
      · have hpk : p.1 ≠ k := by rw [hp]; exact hne
        simp [alookup, hp, hne, hpk]
      · simp only [if_neg hp, alookup]
        split
        · rfl
        · exact ih

theorem alookup_setKey_self {α : Type} (l : List (String × α)) (k : String)
    (v : α) : alookup (setKey l k v) k = some v := by
  induction l with
  | nil => simp [alookup, setKey]
  | cons p rest ih =>
      simp only [setKey]
      by_cases hp : p.1 = k
      · simp [alookup, hp]
      · simp only [if_neg hp, alookup, ih]

theorem length_setKey_le {α : Type} (l : List (String × α)) (k : String)
    (v : α) : (setKey l k v).length ≤ l.length + 1 := by
  induction l with
  | nil => simp [setKey]
  | cons p rest ih =>
      simp only [setKey]
      split
      · simp
      · simpa using Nat.succ_le_succ ih

/-! ### Data model

Structures mirroring the dict shapes of `game_logic.py` / `app_web.py` and
the static tables in `data/phase1_data.py`, `data/phase2_advanced.py` and
`data/qrh_library.py`. String fields that are only forwarded to the UI
(`sop_data` contents, alert messages, quiz texts) are elided; every field a
claim depends on is kept verbatim. -/

/-- `Actor` dataclass of `game_logic.py`. -/
structure Actor where
  username : String
  role : String
  is_ai : Bool := false
  sid : Option String := none
deriving DecidableEq

/-- Entry of `rooms[room]['users']`. -/
structure UserInfo where
  username : String
  role : String
  is_ai : Bool := false
deriving DecidableEq

/-- One entry of a threat's `options` list in `phase1_data.py`. -/
structure ThreatOption where
  id : String
  text : String
  correct : Bool
deriving DecidableEq

/-- A threat's `scores` dict: the 2x2 scoring matrix. -/
structure ScoreMatrix where
  pf_correct_pm_approve : Int
  pf_correct_pm_reject : Int
  pf_wrong_pm_approve : Int
  pf_wrong_pm_reject : Int
deriving DecidableEq

/-- One value of the `PHASE1_THREATS` dict (`sop_data` elided). -/
structure ThreatData where
  options : List ThreatOption
  scores : ScoreMatrix
deriving DecidableEq

/-- `SCENARIO_1["threats"]`, the default binding of `PHASE1_THREATS`
(option texts kept verbatim from `data/phase1_data.py`). -/
def PHASE1_THREATS : List (String × ThreatData) :=
  [("24015G25KT",
    { options :=
        [⟨"standard_procedure", "使用侧风起飞标准程序", true⟩,
         ⟨"wait_wind", "等待风况改善后起飞", true⟩,
         ⟨"ignore_wind", "忽略侧风影响，正常起飞", false⟩],
      scores := ⟨15, -5, -20, 5⟩ }),
   ("Landing_Light_U/S",
    { options :=
        [⟨"check_mel", "查阅 MEL，确认可放行条件", true⟩,
         ⟨"daylight_ok", "白天飞行无影响，继续起飞", false⟩,
         ⟨"defer_flight", "推迟航班，等待维修", true⟩],
      scores := ⟨15, -5, -20, 5⟩ }),
   ("Recovering_from_Cold",
    { options :=
        [⟨"imsafe_check", "执行 IMSAFE 检查，评估适航性", true⟩,
         ⟨"simple_flight", "简单航线无影响，继续", false⟩,
         ⟨"monitor_condition", "飞行中持续监控身体状态", true⟩],
      scores := ⟨15, -5, -20, 5⟩ })]

/-- `decision_data` dict built by `GameLogic.pf_submit_decision`
(`sop_data` elided). -/
structure DecisionData where
  keyword : String
  option_id : String
  option_text : String
  is_correct : Bool
  pf_username : String
deriving DecidableEq

/-- Entry of `rooms[room]['phase1_threats']` written by
`GameLogic.pm_verify_decision`. -/
structure ThreatRecord where
  pf_decision : String
  pf_correct : Bool
  pm_approved : Bool
  result : String
  score_change : Int
deriving DecidableEq

/-- Entry of `GAUGE_CONFIGS` in `data/phase2_advanced.py`; only `name` is
read by the modelled operations (the numeric baseline/range fields feed the
gauge renderer and the value generator, which no claim depends on). -/
structure GaugeConfig where
  name : String
deriving DecidableEq

/-- `GAUGE_CONFIGS` of `data/phase2_advanced.py` (keys and names). -/
def GAUGE_CONFIGS : List (String × GaugeConfig) :=
  [("spd", ⟨"空速 (Airspeed)"⟩),
   ("alt", ⟨"高度 (Altitude)"⟩),
   ("oil_p", ⟨"滑油压力 (Oil Pressure)"⟩),
   ("rpm", ⟨"发动机转速 (RPM)"⟩),
   ("fuel_qty", ⟨"燃油量 (Fuel Quantity)"⟩),
   ("vacuum", ⟨"真空压力 (Vacuum)"⟩),
   ("ammeter", ⟨"电流表 (Ammeter)"⟩)]

/-- One event of a `MULTI_EVENT_SCENARIOS` entry; `gauge` and `pattern` come
from the nested `precursor` dict, alert text is elided. Times are seconds. -/
structure EventData where
  id : String
  name : String
  precursor_start : Rat
  alert_start : Rat
  event_end : Rat
  gauge : String
  pattern : String
  detection_score : Int
  reaction_score : Int
deriving DecidableEq

/-- One entry of `MULTI_EVENT_SCENARIOS`. -/
structure ScenarioData where
  name : String
  duration : Rat
  acceptable_qrh : List String
  events : List EventData
deriving DecidableEq

/-- `MULTI_EVENT_SCENARIOS` of `data/phase2_advanced.py`. -/
def MULTI_EVENT_SCENARIOS : List (String × ScenarioData) :=
  [("routine_flight",
    { name := "常规巡航 - 双重故障", duration := 180,
      acceptable_qrh := ["fuel_imbalance", "vacuum_failure"],
      events :=
        [⟨"fuel_imbalance", "燃油不平衡", 20, 35, 60, "fuel_qty",
          "asymmetric", 20, 5⟩,
         ⟨"vacuum_failure", "真空系统失效", 100, 115, 150, "vacuum",
          "gradual_drop", 20, 5⟩] }),
   ("critical_situation",
    { name := "关键情况 - 滑油压力丧失", duration := 90,
      acceptable_qrh := ["low_oil_pressure"],
      events :=
        [⟨"oil_pressure_loss", "滑油压力丧失", 15, 30, 80, "oil_p",
          "fluctuate_down", 25, 5⟩] }),
   ("winter_ops",
    { name := "冬季运行 - 化油器结冰与电气故障", duration := 180,
      acceptable_qrh := ["carburetor_icing", "alternator_failure"],
      events :=
        [⟨"carb_ice", "化油器结冰", 25, 40, 70, "rpm",
          "gradual_drop", 20, 5⟩,
         ⟨"alternator_failure", "交流发电机失效", 105, 120, 160, "ammeter",
          "discharge", 20, 5⟩] })]

/-- One entry of `QRH_LIBRARY` in `data/qrh_library.py`. -/
structure QrhEntry where
  title : String
  items : List String
deriving DecidableEq

/-- `QRH_LIBRARY` of `data/qrh_library.py`. -/
def QRH_LIBRARY : List (String × QrhEntry) :=
  [("low_oil_pressure",
    ⟨"LOW OIL PRESSURE",
     ["Throttle - REDUCE", "Landing Area - SELECT",
      "Prepare - FOR ENGINE FAILURE"]⟩),
   ("engine_fire",
    ⟨"ENGINE FIRE IN FLIGHT",
     ["Mixture - CUTOFF", "Fuel Valve - OFF", "Master Switch - OFF",
      "Cabin Heat - OFF", "Airspeed - 105 KIAS"]⟩),
   ("electrical_fire",
    ⟨"ELECTRICAL FIRE",
     ["Master Switch - OFF", "Vents/Cabin Air - CLOSED",
      "Fire Extinguisher - ACTIVATE", "Avionics - OFF"]⟩),
   ("carburetor_icing",
    ⟨"CARBURETOR ICING",
     ["Carburetor Heat - FULL ON", "Throttle - OPEN slowly",
      "Monitor - RPM RECOVERY", "Mixture - ADJUST"]⟩),
   ("fuel_imbalance",
    ⟨"FUEL IMBALANCE",
     ["Fuel Selector - SWITCH to fuller tank",
      "Cross-feed - OPEN (if available)", "Monitor - FUEL QTY",
      "Plan - EARLY LANDING if severe"]⟩),
   ("vacuum_failure",
    ⟨"VACUUM SYSTEM FAILURE",
     ["Verify - ATTITUDE INDICATOR unreliable",
      "Use - TURN COORDINATOR for bank", "Refer - MAGNETIC COMPASS",
      "Avoid - IMC if possible"]⟩),
   ("alternator_failure",
    ⟨"ALTERNATOR FAILURE",
     ["Alternator - CYCLE (OFF then ON)", "If no recovery - SHED LOAD",
      "Avionics - MINIMIZE", "Battery - MONITOR voltage",
      "Plan - NEAREST AIRPORT"]⟩)]

/-- `current_scenario` dict stored on the room by `start_simulation`
(`description`, `duration` and `events` elided; no modelled operation
reads them from the room copy). -/
structure ScenarioRef where
  name : String
  acceptable_qrh : List String
deriving DecidableEq

/-- Entry of `rooms[room]['event_detections']`. -/
structure Detection where
  detected_at : String
  timestamp : Rat
deriving DecidableEq

/-- The per-room state dict created by `on_join` in `app_web.py`, restricted
to the fields the modelled operations read or write (`chat_history`,
`found_threats`, quiz results, AI-agent handles and timing fields are
elided). `checked_items` holds the client-supplied integer indices. -/
structure Room where
  users : List (String × UserInfo)
  score : Int
  sim_active : Bool
  active_checklist_len : Nat
  checked_items : List Int
  ready_for_next : List String
  current_scenario : Option ScenarioRef
  current_phase : String
  phase1_threats : List (String × ThreatRecord)
  pending_decision : Option DecisionData
  pending_decisions_queue : List DecisionData
  monitored_gauges : List String
  event_detections : List (String × Detection)
  gauge_states : List (String × Rat)
  used_qrh : List String
  current_qrh : Option String
  mode : String
deriving DecidableEq

/-- The fresh room dict (`rooms[room] = {...}` in `on_join`). -/
def initRoom : Room :=
  { users := [], score := 0, sim_active := false, active_checklist_len := 0,
    checked_items := [], ready_for_next := [], current_scenario := none,
    current_phase := "waiting", phase1_threats := [],
    pending_decision := none, pending_decisions_queue := [],
    monitored_gauges := [], event_detections := [], gauge_states := [],
    used_qrh := [], current_qrh := none, mode := "dual_player" }

/-! ### Game-logic operations (`game_logic.py`)

Every operation returns its new room state together with its Python return
value. A Python call that raises an uncaught exception (`KeyError` /
`TypeError` / `AttributeError`) is modelled as `CallResult.errored`, paired
with exactly the state mutated before the raising line. -/

/-- Outcome of a Python call: normal `True` / `False` return, or an uncaught
exception. -/
inductive CallResult
  | returnedTrue
  | returnedFalse
  | errored
deriving DecidableEq

/-- The first human PM in the room's user dict — the recipient of
`show_pm_verify_panel` in `_process_next_decision_in_queue` (the loop
breaks at the first `role == 'PM' and not is_ai` entry). -/
def humanPM (users : List (String × UserInfo)) : Option String :=
  (users.find? (fun p => p.2.role == "PM" && !p.2.is_ai)).map (fun p => p.1)

/-- `GameLogic._process_next_decision_in_queue`: pop the queue head, make it
the pending decision, and emit a verify-prompt to the human PM if one is
seated. Returns the new room and the list of prompted decisions (empty or a
singleton). -/
def processNextDecisionInQueue (room : Room) : Room × List DecisionData :=
  match room.pending_decisions_queue with
  | [] => (room, [])
  | d :: rest =>
      let room1 := { room with
        pending_decisions_queue := rest, pending_decision := some d }
      match humanPM room.users with
      | some _ => (room1, [d])
      | none => (room1, [])

/-- `GameLogic.pf_identify_threat` (mutates nothing; validates role, threat
table membership, and that the keyword is not already resolved). -/
def pf_identify_threat (room : Room) (keyword : String) (actor : Actor) :
    CallResult :=
  if actor.role ≠ "PF" then .returnedFalse
  else if (alookup PHASE1_THREATS keyword).isNone then .returnedFalse
  else if (alookup room.phase1_threats keyword).isSome then .returnedFalse
  else .returnedTrue

/-- `GameLogic.pf_submit_decision`: role check, option lookup (an unknown
keyword raises `KeyError` before any mutation), enqueue, and immediate
promotion when nothing is pending. Returns (result, room, prompts). -/
def pf_submit_decision (room : Room) (keyword option_id : String)
    (actor : Actor) : CallResult × Room × List DecisionData :=
  if actor.role ≠ "PF" then (.returnedFalse, room, [])
  else
    match alookup PHASE1_THREATS keyword with
    | none => (.errored, room, [])
    | some threat =>
        match threat.options.find? (fun o => o.id == option_id) with
        | none => (.returnedFalse, room, [])
        | some opt =>
            let d : DecisionData :=
              ⟨keyword, option_id, opt.text, opt.correct, actor.username⟩
            let room1 := { room with
              pending_decisions_queue := room.pending_decisions_queue ++ [d] }
            if room1.pending_decision = none then
              (.returnedTrue, (processNextDecisionInQueue room1).1,
                (processNextDecisionInQueue room1).2)
            else (.returnedTrue, room1, [])

/-- The 2x2 outcome of `GameLogic.pm_verify_decision`: the score delta taken
from the threat's matrix and the result tag, keyed by
`(pf_is_correct, approved)` exactly as the if/elif chain does. -/
def verifyOutcome (pf_correct approved : Bool) (s : ScoreMatrix) :
    Int × String :=
  if pf_correct && approved then (s.pf_correct_pm_approve, "success")
  else if pf_correct && !approved then (s.pf_correct_pm_reject, "pm_error")
  else if !pf_correct && approved then
    (s.pf_wrong_pm_approve, "critical_error")
  else (s.pf_wrong_pm_reject, "pm_catch")

/-- `GameLogic.pm_verify_decision`: role check, pending check, matrix
application, score update, `phase1_threats[keyword]` record, clearing of
`pending_decision`, then promotion of the next queued decision. -/
def pm_verify_decision (room : Room) (approved : Bool) (actor : Actor) :
    CallResult × Room × List DecisionData :=
  if actor.role ≠ "PM" then (.returnedFalse, room, [])
  else
    match room.pending_decision with
    | none => (.returnedFalse, room, [])
    | some pending =>
        match alookup PHASE1_THREATS pending.keyword with
        | none => (.errored, room, [])
        | some threat =>
            let sc := (verifyOutcome pending.is_correct approved
              threat.scores).1
            let tag := (verifyOutcome pending.is_correct approved
              threat.scores).2
            let room1 := { room with
              score := room.score + sc,
              phase1_threats := setKey room.phase1_threats pending.keyword
                ⟨pending.option_text, pending.is_correct, approved, tag, sc⟩,
              pending_decision := none }
            (.returnedTrue, (processNextDecisionInQueue room1).1,
              (processNextDecisionInQueue room1).2)

/-- Success dict returned by `GameLogic.monitor_gauge`
(the redundant `gauge_config` entry is elided). -/
structure MonitorResult where
  gauge_id : String
  gauge_name : String
  current_value : Option Rat
deriving DecidableEq

/-- `GameLogic.monitor_gauge`: adds the gauge to `monitored_gauges`, reads
the current value, then builds the log entry via `GAUGE_CONFIGS[gauge_id]` —
which raises `KeyError` for an unknown id, after the set was mutated. -/
def monitor_gauge (room : Room) (gauge_id : String) (_actor : Actor) :
    Option MonitorResult × Room :=
  let room1 := { room with
    monitored_gauges := insertSet gauge_id room.monitored_gauges }
  let current_value := alookup room1.gauge_states gauge_id
  match alookup GAUGE_CONFIGS gauge_id with
  | none => (none, room1)
  | some cfg => (some ⟨gauge_id, cfg.name, current_value⟩, room1)

/-- `GameLogic.select_qrh`, line by line: duplicate check; phase set to
phase3; `used_qrh.add` and `current_qrh`; `QRH_LIBRARY.get`; reset of
`checked_items`; `len(qrh['items'])` (raises on an unknown key);
`current_scenario.get('acceptable_qrh')` (raises when no scenario is
loaded); the ±20 score update. -/
def select_qrh (room : Room) (qrh_key : String) (_actor : Actor) :
    CallResult × Room :=
  if qrh_key ∈ room.used_qrh then (.returnedFalse, room)
  else
    let room1 := { room with
      current_phase := "phase3",
      used_qrh := insertSet qrh_key room.used_qrh,
      current_qrh := some qrh_key }
    match alookup QRH_LIBRARY qrh_key with
    | none => (.errored, { room1 with checked_items := [] })
    | some qrh =>
        let room2 := { room1 with
          checked_items := [],
          active_checklist_len := qrh.items.length }
        match room.current_scenario with
        | none => (.errored, room2)
        | some scen =>
            let is_correct := qrh_key ∈ scen.acceptable_qrh
            let room3 := { room2 with
              score := room2.score + (if is_correct then 20 else -20) }
            (.returnedTrue, room3)

/-- `handle_select` in `app_web.py`: dispatches to `select_qrh` and emits
`error_msg` exactly when the call returned `False`. Result: (room, whether
`error_msg` was emitted). -/
def handle_select (room : Room) (key : String) (actor : Actor) :
    Room × Bool :=
  let r := select_qrh room key actor
  (r.2, r.1 = .returnedFalse)

/-- `GameLogic.check_item`: adds the client-supplied index to
`checked_items` with no validation, then broadcasts `checklist_complete`
when the set's size equals `active_checklist_len`. Result:
(return value, room, whether `checklist_complete` was broadcast). -/
def check_item (room : Room) (item_index : Int) (_actor : Actor) :
    Bool × Room × Bool :=
  let room1 := { room with
    checked_items := insertSet item_index room.checked_items }
  (true, room1, room1.checked_items.length = room1.active_checklist_len)

/-! ### Gateway join handler (`on_join` in `app_web.py`) -/

/-- `ai_role = "PM" if role == "PF" else "PF"`. -/
def oppositeRole (role : String) : String :=
  if role = "PF" then "PM" else "PF"

/-- `on_join`: creates the room on first contact; the
`single_player`-with-AI branch seats the human and a synthetic AI user with
no capacity check and starts phase1; the dual-player branch rejects with
`room_full` at 2 users, otherwise seats the user (role taken from the
request, unvalidated) and starts phase1 at occupancy 2. Result:
(room, whether `room_full` was emitted). -/
def on_join (aiEnabled : Bool) (roomId : String) (st : Option Room)
    (sid username role mode : String) : Room × Bool :=
  let room := st.getD initRoom
  if mode = "single_player" ∧ aiEnabled then
    let ai_role := oppositeRole role
    let fake_sid := "AI_" ++ roomId ++ "_" ++ ai_role
    let room1 := { room with
      mode := "single_player",
      users := setKey (setKey room.users sid ⟨username, role, false⟩)
        fake_sid ⟨"AI " ++ ai_role, ai_role, true⟩,
      current_phase := "phase1" }
    -- falls through to the shared tail; occupancy is 2 on the first join,
    -- so the phase1 assignment there is a re-assignment
    let room2 := if room1.users.length = 2 then
        { room1 with current_phase := "phase1" }
      else room1
    (room2, false)
  else
    if room.users.length ≥ 2 then (room, true)
    else
      let room1 := { room with
        users := setKey room.users sid ⟨username, role, false⟩ }
      let room2 := if room1.users.length = 2 then
          { room1 with current_phase := "phase1" }
        else room1
      (room2, false)

/-- `start_simulation` in `app_web.py` for a chosen scenario: guards on
`sim_active`, sets phase2 and stores the scenario reference (event queue,
timers and gauge baselines are initialized there too; elided, as no claim
reads them from the room). -/
def start_simulation (room : Room) (scenario : ScenarioRef) : Room :=
  if room.sim_active then room
  else { room with sim_active := true, current_phase := "phase2",
                   current_scenario := some scenario }

/-! ### Simulation-loop detection logic (`run_sim_loop` in `app_web.py`)

The loop's per-tick, per-event handling of `event_detections` and the
score, projected onto the state it reads and writes. `event_alerted` is the
loop-local dict guarding the once-only alert body; the gauge-value writes
feed only the `flight_update` broadcast and are elided. -/

/-- The room/loop state the detection logic touches. -/
structure SimState where
  monitored_gauges : List String
  event_detections : List (String × Detection)
  score : Int
  event_alerted : List (String × Bool)
deriving DecidableEq

/-- One event's slice of a tick at elapsed time `t`: the
precursor-detection branch (`precursor_start <= t < event_end`,
`t < alert_start`) and the alert branch, exactly as in
`run_sim_loop`. -/
def tickEvent (ev : EventData) (t : Rat) (s : SimState) : SimState :=
  if ev.precursor_start ≤ t ∧ t < ev.event_end then
    if t < ev.alert_start then
      if ev.gauge ∈ s.monitored_gauges ∧
          alookup s.event_detections ev.id = none then
        { s with
          event_detections := setKey s.event_detections ev.id
            ⟨"precursor", t⟩,
          score := s.score + ev.detection_score }
      else s
    else
      if (alookup s.event_alerted ev.id).getD false = false then
        let s1 := { s with
          event_alerted := setKey s.event_alerted ev.id true }
        if alookup s1.event_detections ev.id = none then
          { s1 with
            event_detections := setKey s1.event_detections ev.id
              ⟨"alert", t⟩,
            score := s1.score + ev.reaction_score }
        else s1
      else s
  else s

/-- One whole tick: the `for event in events` pass. -/
def tickAll (events : List EventData) (t : Rat) (s : SimState) : SimState :=
  events.foldl (fun acc ev => tickEvent ev t acc) s

/-- What can happen to the detection state over the simulation: loop ticks,
interleaved with `monitor_gauge` insertions from the gateway. -/
inductive SimOp
  | tick (t : Rat)
  | monitor (g : String)

def simStep (events : List EventData) (s : SimState) (op : SimOp) :
    SimState :=
  match op with
  | .tick t => tickAll events t s
  | .monitor g => { s with monitored_gauges := insertSet g s.monitored_gauges }

def simRun (events : List EventData) (s : SimState) (ops : List SimOp) :
    SimState :=
  ops.foldl (simStep events) s

/-! ### Phase-1 decision-queue traces

A trace of `pf_submit_decision` / `pm_verify_decision` calls on one room,
accumulating the verify-prompts emitted to the human PM plus two ghost
observers (successfully enqueued and successfully verified decisions) used
to state the FIFO property. -/

def optList {α : Type} : Option α → List α
  | none => []
  | some a => [a]

inductive P1Op
  | submit (keyword option_id : String) (actor : Actor)
  | verify (approved : Bool) (actor : Actor)

/-- Ghost observer: the decision a `pf_submit_decision` call enqueues,
mirroring that call's success conditions. -/
def submitEnqueued (keyword option_id : String) (actor : Actor) :
    List DecisionData :=
  if actor.role ≠ "PF" then []
  else
    match alookup PHASE1_THREATS keyword with
    | none => []
    | some threat =>
        match threat.options.find? (fun o => o.id == option_id) with
        | none => []
        | some opt =>
            [⟨keyword, option_id, opt.text, opt.correct, actor.username⟩]

/-- Ghost observer: the pending decision a `pm_verify_decision` call
consumes, mirroring that call's success conditions. -/
def verifyConsumed (room : Room) (actor : Actor) : List DecisionData :=
  if actor.role ≠ "PM" then []
  else
    match room.pending_decision with
    | none => []
    | some p =>
        if (alookup PHASE1_THREATS p.keyword).isSome then [p] else []

structure P1Trace where
  room : Room
  prompts : List DecisionData
  submitted : List DecisionData
  verified : List DecisionData
deriving DecidableEq

def p1StepT (t : P1Trace) (op : P1Op) : P1Trace :=
  match op with
  | .submit k o a =>
      let r := pf_submit_decision t.room k o a
      { room := r.2.1, prompts := t.prompts ++ r.2.2,
        submitted := t.submitted ++ submitEnqueued k o a,
        verified := t.verified }
  | .verify ap a =>
      let r := pm_verify_decision t.room ap a
      { room := r.2.1, prompts := t.prompts ++ r.2.2,
        submitted := t.submitted,
        verified := t.verified ++ verifyConsumed t.room a }

def p1RunT (t : P1Trace) (ops : List P1Op) : P1Trace :=
  ops.foldl p1StepT t

/-- A freshly created room with the given seated users (as after `on_join`
creates it: no pending decision, empty queue, nothing handled). -/
def initP1Trace (users : List (String × UserInfo)) : P1Trace :=
  { room := { initRoom with users := users }, prompts := [],
    submitted := [], verified := [] }

/-! ### The room-mutating operations as one step relation (for the
phase-transition claim) -/

inductive GameOp
  | join (aiEnabled : Bool) (roomId sid username role mode : String)
  | startSim (scenario : ScenarioRef)
  | identify (keyword : String) (a : Actor)
  | submit (keyword option_id : String) (a : Actor)
  | verify (approved : Bool) (a : Actor)
  | monitor (g : String) (a : Actor)
  | selectQrh (key : String) (a : Actor)
  | checkItem (i : Int) (a : Actor)

/-- The room after one gateway-dispatched operation
(`pf_identify_threat` reads but never writes the room). -/
def applyOp (room : Room) (op : GameOp) : Room :=
  match op with
  | .join ae rid sid u r m => (on_join ae rid (some room) sid u r m).1
  | .startSim scen => start_simulation room scen
  | .identify _ _ => room
  | .submit k o a => (pf_submit_decision room k o a).2.1
  | .verify ap a => (pm_verify_decision room ap a).2.1
  | .monitor g a => (monitor_gauge room g a).2
  | .selectQrh k a => (select_qrh room k a).2
  | .checkItem i a => (check_item room i a).2.1

/-- A sequence of dual-player join requests `(sid, username, role)` applied
to a fresh room. -/
def runDualJoins (aiEnabled : Bool) (roomId : String)
    (js : List (String × String × String)) : Room :=
  js.foldl
    (fun r j => (on_join aiEnabled roomId (some r) j.1 j.2.1 j.2.2
      "dual_player").1)
    initRoom

/-! ### Helper lemmas about queue promotion -/

theorem processNext_eq (room : Room) :
    (processNextDecisionInQueue room).1 =
      (match room.pending_decisions_queue with
       | [] => room
       | d :: rest =>
           { room with pending_decision := some d,
                       pending_decisions_queue := rest }) := by
  unfold processNextDecisionInQueue
  rcases hq : room.pending_decisions_queue with _ | ⟨d, rest⟩
  · rfl
  · rcases hp : humanPM room.users with _ | sid <;> simp

theorem processNext_prompts (room : Room) :
    (processNextDecisionInQueue room).2 =
      (match room.pending_decisions_queue, humanPM room.users with
       | d :: _, some _ => [d]
       | _, _ => []) := by
  unfold processNextDecisionInQueue
  rcases hq : room.pending_decisions_queue with _ | ⟨d, rest⟩
  · rfl
  · rcases hp : humanPM room.users with _ | sid <;> simp

/-! ### Claim theorems -/

/-- C1: for a room with a pending decision, `pm_verify_decision` called by
a PM applies the threat's 2x2 score matrix keyed by
`(pf_correct, approved)` — tag `success` for (true,true), `pm_error` for
(true,false), `critical_error` for (false,true), `pm_catch` for
(false,false) — adds the selected entry to the room score, records
`{pf_decision, pf_correct, pm_approved, result, score_change}` under the
keyword in `phase1_threats`, and clears `pending_decision` (promoting the
queue head, if any). -/
theorem c1_pm_verify_scoring (room : Room) (pending : DecisionData)
    (approved : Bool) (actor : Actor) (threat : ThreatData)
    (hrole : actor.role = "PM")
    (hpend : room.pending_decision = some pending)
    (hthreat : alookup PHASE1_THREATS pending.keyword = some threat) :
    (pm_verify_decision room approved actor).1 = .returnedTrue ∧
    ((pm_verify_decision room approved actor).2.1.score =
      room.score +
        (if pending.is_correct then
           (if approved then threat.scores.pf_correct_pm_approve
            else threat.scores.pf_correct_pm_reject)
         else
           (if approved then threat.scores.pf_wrong_pm_approve
            else threat.scores.pf_wrong_pm_reject))) ∧
    (alookup (pm_verify_decision room approved actor).2.1.phase1_threats
        pending.keyword =
      some ⟨pending.option_text, pending.is_correct, approved,
        (if pending.is_correct then
           (if approved then "success" else "pm_error")
         else
           (if approved then "critical_error" else "pm_catch")),
        (if pending.is_correct then
           (if approved then threat.scores.pf_correct_pm_approve
            else threat.scores.pf_correct_pm_reject)
         else
           (if approved then threat.scores.pf_wrong_pm_approve
            else threat.scores.pf_wrong_pm_reject))⟩) ∧
    ((pm_verify_decision room approved actor).2.1.pending_decision =
      room.pending_decisions_queue.head?) := by
  have hd : verifyOutcome pending.is_correct approved threat.scores =
      ((if pending.is_correct then
          (if approved then threat.scores.pf_correct_pm_approve
           else threat.scores.pf_correct_pm_reject)
        else
          (if approved then threat.scores.pf_wrong_pm_approve
           else threat.scores.pf_wrong_pm_reject)),
       (if pending.is_correct then
          (if approved then "success" else "pm_error")
        else
          (if approved then "critical_error" else "pm_catch"))) := by
    cases pending.is_correct <;> cases approved <;> rfl
  unfold pm_verify_decision
  rw [if_neg (by rw [hrole]; simp)]
  rcases hq : room.pending_decisions_queue with _ | ⟨d, rest⟩ <;>
    rcases hp : humanPM room.users with _ | sid <;>
      simp [hpend, hthreat, hd, processNextDecisionInQueue, hq, hp,
        alookup_setKey_self]

/-- Dual-human room with the scenario-1 decision
(Landing_Light_U/S, daylight_ok — an incorrect option) before the PM. -/
def c1WitnessRoom : Room :=
  { initRoom with
    users := [("s1", ⟨"alice", "PF", false⟩), ("s2", ⟨"bob", "PM", false⟩)],
    current_phase := "phase1",
    pending_decision := some ⟨"Landing_Light_U/S", "daylight_ok",
      "白天飞行无影响，继续起飞", false, "alice"⟩ }

/-- Witness for C1: the scenario-1 matrix is (15, -5, -20, +5), and a wrong
PF option rejected by the PM yields score_change +5 and result pm_catch. -/
theorem c1_pm_verify_scoring_witness :
    (pm_verify_decision c1WitnessRoom false ⟨"bob", "PM", false, none⟩).1 =
      .returnedTrue ∧
    (pm_verify_decision c1WitnessRoom false
      ⟨"bob", "PM", false, none⟩).2.1.score = 5 ∧
    alookup (pm_verify_decision c1WitnessRoom false
        ⟨"bob", "PM", false, none⟩).2.1.phase1_threats "Landing_Light_U/S" =
      some ⟨"白天飞行无影响，继续起飞", false, false, "pm_catch", 5⟩ ∧
    (pm_verify_decision c1WitnessRoom false
      ⟨"bob", "PM", false, none⟩).2.1.pending_decision = none := by
  have h := c1_pm_verify_scoring c1WitnessRoom
    ⟨"Landing_Light_U/S", "daylight_ok", "白天飞行无影响，继续起飞", false,
      "alice"⟩
    false ⟨"bob", "PM", false, none⟩
    ⟨[⟨"check_mel", "查阅 MEL，确认可放行条件", true⟩,
      ⟨"daylight_ok", "白天飞行无影响，继续起飞", false⟩,
      ⟨"defer_flight", "推迟航班，等待维修", true⟩], ⟨15, -5, -20, 5⟩⟩
    rfl rfl (by decide)
  simpa [c1WitnessRoom, initRoom] using h

/-- C7: `monitor_gauge` is idempotent on room state: a second call with the
same gauge id leaves the room (hence `monitored_gauges`, `gauge_states`,
`score`) exactly as the first call did, and returns the same result. -/
theorem c7_monitor_gauge_idempotent (room : Room) (gauge_id : String)
    (actor : Actor) :
    (monitor_gauge (monitor_gauge room gauge_id actor).2 gauge_id actor).2 =
      (monitor_gauge room gauge_id actor).2 ∧
    (monitor_gauge (monitor_gauge room gauge_id actor).2 gauge_id actor).1 =
      (monitor_gauge room gauge_id actor).1 := by
  unfold monitor_gauge
  rcases h : alookup GAUGE_CONFIGS gauge_id with _ | cfg <;>
    simp [h, insertSet_idem]

/-- C9: `monitor_gauge` on a gauge id absent from `GAUGE_CONFIGS` first
inserts the id into `monitored_gauges` and then fails at the config lookup,
so the room is mutated although the operation does not complete; and such
an id cannot equal the gauge of any scenario event (they are all config
keys), so it can never satisfy the precursor-detection check. -/
theorem c9_monitor_gauge_error_mutates (room : Room) (gauge_id : String)
    (actor : Actor) (hg : alookup GAUGE_CONFIGS gauge_id = none) :
    (monitor_gauge room gauge_id actor).1 = none ∧
    (monitor_gauge room gauge_id actor).2 =
      { room with
        monitored_gauges := insertSet gauge_id room.monitored_gauges } ∧
    gauge_id ∈ (monitor_gauge room gauge_id actor).2.monitored_gauges ∧
    (∀ s ∈ MULTI_EVENT_SCENARIOS, ∀ ev ∈ s.2.events, ev.gauge ≠ gauge_id) := by
  refine ⟨?_, ?_, ?_, ?_⟩
  · simp [monitor_gauge, hg]
  · simp [monitor_gauge, hg]
  · simp [monitor_gauge, hg, mem_insertSet_self]
  · intro s hs ev hev hc
    rw [← hc] at hg
    simp only [MULTI_EVENT_SCENARIOS, List.mem_cons, List.not_mem_nil,
      or_false] at hs
    rcases hs with rfl | rfl | rfl <;>
      · simp only [List.mem_cons, List.not_mem_nil, or_false] at hev
        rcases hev with rfl | rfl <;> revert hg <;> decide

/-- Witness for C9 at the unknown gauge id `"foo"` on a fresh room. -/
theorem c9_monitor_gauge_error_mutates_witness :
    (monitor_gauge initRoom "foo" ⟨"alice", "PF", false, none⟩).1 = none ∧
    (monitor_gauge initRoom "foo"
      ⟨"alice", "PF", false, none⟩).2.monitored_gauges = ["foo"] := by
  have h := c9_monitor_gauge_error_mutates initRoom "foo"
    ⟨"alice", "PF", false, none⟩ (by decide)
  refine ⟨h.1, ?_⟩
  rw [h.2.1]
  decide

/-- Room in phase3 executing a 3-item checklist, no item checked yet. -/
def c5Room : Room :=
  { initRoom with
    current_phase := "phase3", active_checklist_len := 3,
    current_qrh := some "low_oil_pressure",
    used_qrh := ["low_oil_pressure"] }

/-- Counterexample to C5 as stated: `check_item` with the out-of-range
index 99 does not fail and does not leave the room unchanged — it returns
True and adds 99 to `checked_items`; moreover out-of-range indices count
toward completion, so checking 0, 1, 99 on a 3-item checklist broadcasts
`checklist_complete`. -/
theorem c5_counterexample :
    (check_item c5Room 99 ⟨"alice", "PF", false, none⟩).1 = true ∧
    (check_item c5Room 99 ⟨"alice", "PF", false, none⟩).2.1 ≠ c5Room ∧
    (check_item c5Room 99
      ⟨"alice", "PF", false, none⟩).2.1.checked_items = [99] ∧
    (check_item (check_item (check_item c5Room 0
        ⟨"alice", "PF", false, none⟩).2.1 1
        ⟨"alice", "PF", false, none⟩).2.1 99
        ⟨"alice", "PF", false, none⟩).2.2 = true := by
  refine ⟨rfl, ?_, by decide, by decide⟩
  intro hc
  have : (check_item c5Room 99
      ⟨"alice", "PF", false, none⟩).2.1.checked_items =
      c5Room.checked_items := by rw [hc]
  revert this
  decide

/-- C5 amended: `check_item` performs no index validation — any index,
in-range or not, is added to `checked_items` and the call returns True;
`checklist_complete` is broadcast exactly when the size of `checked_items`
(out-of-range indices included) equals `active_checklist_len`; score,
phase and everything else are untouched. -/
theorem c5_check_item_amended (room : Room) (idx : Int) (actor : Actor) :
    (check_item room idx actor).1 = true ∧
    (check_item room idx actor).2.1 =
      { room with checked_items := insertSet idx room.checked_items } ∧
    (check_item room idx actor).2.1.score = room.score ∧
    (check_item room idx actor).2.1.current_phase = room.current_phase ∧
    ((check_item room idx actor).2.2 = true ↔
      (insertSet idx room.checked_items).length =
        room.active_checklist_len) := by
  refine ⟨rfl, rfl, rfl, rfl, ?_⟩
  simp [check_item]

/-- C6: selecting a checklist key already in `used_qrh` fails — the handler
emits `error_msg` and the room (so `used_qrh`, `current_qrh`,
`checked_items`, score) is unchanged; a fresh key is added to `used_qrh`,
becomes `current_qrh`, resets `checked_items`, sets
`active_checklist_len` to the checklist length, and moves the score by +20
when the key is acceptable for the current scenario and -20 otherwise. -/
theorem c6_select_qrh (room : Room) (qrh_key : String) (actor : Actor)
    (qrh : QrhEntry) (scen : ScenarioRef)
    (hq : alookup QRH_LIBRARY qrh_key = some qrh)
    (hs : room.current_scenario = some scen) :
    (qrh_key ∈ room.used_qrh →
      handle_select room qrh_key actor = (room, true)) ∧
    (qrh_key ∉ room.used_qrh →
      (select_qrh room qrh_key actor).1 = .returnedTrue ∧
      (select_qrh room qrh_key actor).2.used_qrh =
        room.used_qrh ++ [qrh_key] ∧
      (select_qrh room qrh_key actor).2.current_qrh = some qrh_key ∧
      (select_qrh room qrh_key actor).2.checked_items = [] ∧
      (select_qrh room qrh_key actor).2.active_checklist_len =
        qrh.items.length ∧
      (select_qrh room qrh_key actor).2.score = room.score +
        (if qrh_key ∈ scen.acceptable_qrh then 20 else -20)) := by
  constructor
  · intro hmem
    simp [handle_select, select_qrh, hmem]
  · intro hmem
    simp [select_qrh, hmem, hq, hs, insertSet]

/-- Room holding the routine-flight scenario, with `engine_fire` already
executed. -/
def c6Room : Room :=
  { initRoom with
    current_phase := "phase2", sim_active := true,
    current_scenario := some ⟨"常规巡航 - 双重故障",
      ["fuel_imbalance", "vacuum_failure"]⟩,
    used_qrh := ["engine_fire"] }

/-- Witness for C6: re-selecting `engine_fire` is rejected with
`error_msg` and no state change; selecting the acceptable
`fuel_imbalance` succeeds and scores +20 with its 4-item checklist. -/
theorem c6_select_qrh_witness :
    handle_select c6Room "engine_fire" ⟨"bob", "PM", false, none⟩ =
      (c6Room, true) ∧
    (select_qrh c6Room "fuel_imbalance" ⟨"bob", "PM", false, none⟩).1 =
      .returnedTrue ∧
    (select_qrh c6Room "fuel_imbalance"
      ⟨"bob", "PM", false, none⟩).2.score = 20 ∧
    (select_qrh c6Room "fuel_imbalance"
      ⟨"bob", "PM", false, none⟩).2.used_qrh =
      ["engine_fire", "fuel_imbalance"] ∧
    (select_qrh c6Room "fuel_imbalance"
      ⟨"bob", "PM", false, none⟩).2.active_checklist_len = 4 := by
  have h1 := c6_select_qrh c6Room "engine_fire" ⟨"bob", "PM", false, none⟩
    ⟨"ENGINE FIRE IN FLIGHT",
     ["Mixture - CUTOFF", "Fuel Valve - OFF", "Master Switch - OFF",
      "Cabin Heat - OFF", "Airspeed - 105 KIAS"]⟩
    ⟨"常规巡航 - 双重故障", ["fuel_imbalance", "vacuum_failure"]⟩
    (by decide) rfl
  have h2 := c6_select_qrh c6Room "fuel_imbalance" ⟨"bob", "PM", false, none⟩
    ⟨"FUEL IMBALANCE",
     ["Fuel Selector - SWITCH to fuller tank",
      "Cross-feed - OPEN (if available)", "Monitor - FUEL QTY",
      "Plan - EARLY LANDING if severe"]⟩
    ⟨"常规巡航 - 双重故障", ["fuel_imbalance", "vacuum_failure"]⟩
    (by decide) rfl
  have h2b := h2.2 (by decide)
  refine ⟨h1.1 (by decide), h2b.1, ?_, ?_, ?_⟩
  · rw [h2b.2.2.2.2.2]
    decide
  · rw [h2b.2.1]
    decide
  · rw [h2b.2.2.2.2.1]
    decide

/-- C8: `pf_submit_decision` does not consult `phase1_threats`: a keyword
already resolved there can be submitted again by the PF (the call returns
True and the decision is enqueued/promoted), and the subsequent
`pm_verify_decision` moves the score again and overwrites the keyword's
record; only `pf_identify_threat` rejects an already-resolved keyword. -/
theorem c8_resubmission (room : Room) (keyword option_id : String)
    (pf pm : Actor) (approved : Bool) (threat : ThreatData)
    (opt : ThreatOption) (oldRec : ThreatRecord)
    (hrec : alookup room.phase1_threats keyword = some oldRec)
    (hthreat : alookup PHASE1_THREATS keyword = some threat)
    (hopt : threat.options.find? (fun o => o.id == option_id) = some opt)
    (hpf : pf.role = "PF") (hpm : pm.role = "PM")
    (hpend : room.pending_decision = none)
    (hqueue : room.pending_decisions_queue = []) :
    pf_identify_threat room keyword pf = .returnedFalse ∧
    (pf_submit_decision room keyword option_id pf).1 = .returnedTrue ∧
    (pf_submit_decision room keyword option_id pf).2.1.pending_decision =
      some ⟨keyword, option_id, opt.text, opt.correct, pf.username⟩ ∧
    (pm_verify_decision (pf_submit_decision room keyword option_id pf).2.1
      approved pm).2.1.score = room.score +
        (verifyOutcome opt.correct approved threat.scores).1 ∧
    alookup (pm_verify_decision
        (pf_submit_decision room keyword option_id pf).2.1
        approved pm).2.1.phase1_threats keyword =
      some ⟨opt.text, opt.correct, approved,
        (verifyOutcome opt.correct approved threat.scores).2,
        (verifyOutcome opt.correct approved threat.scores).1⟩ := by
  have hid : pf_identify_threat room keyword pf = .returnedFalse := by
    unfold pf_identify_threat
    rw [if_neg (by rw [hpf]; simp), if_neg (by rw [hthreat]; simp),
      if_pos (by rw [hrec]; simp)]
  have hsub :
      (pf_submit_decision room keyword option_id pf).1 = .returnedTrue ∧
      (pf_submit_decision room keyword option_id pf).2.1 =
        { room with
          pending_decision :=
            some ⟨keyword, option_id, opt.text, opt.correct, pf.username⟩,
          pending_decisions_queue := [] } ∧
      (pf_submit_decision room keyword option_id pf).2.2.length ≤ 1 := by
    unfold pf_submit_decision
    rw [if_neg (by rw [hpf]; simp), hthreat]
    rcases hp : humanPM room.users with _ | sid <;>
      simp [hopt, hpend, hqueue, processNextDecisionInQueue, hp]
  refine ⟨hid, hsub.1, ?_, ?_, ?_⟩
  · rw [hsub.2.1]
  · rw [hsub.2.1]
    unfold pm_verify_decision
    rw [if_neg (by rw [hpm]; simp)]
    simp [hthreat, processNextDecisionInQueue]
  · rw [hsub.2.1]
    unfold pm_verify_decision
    rw [if_neg (by rw [hpm]; simp)]
    simp [hthreat, processNextDecisionInQueue, alookup_setKey_self]

/-- Dual-human room in which the crosswind threat has already been
resolved with the best outcome (+15, success). -/
def c8Room : Room :=
  { initRoom with
    users := [("s1", ⟨"alice", "PF", false⟩), ("s2", ⟨"bob", "PM", false⟩)],
    current_phase := "phase1", score := 15,
    phase1_threats :=
      [("24015G25KT", ⟨"使用侧风起飞标准程序", true, true, "success", 15⟩)] }

/-- Witness for C8: resubmitting the resolved crosswind keyword with the
wrong option and a PM approval moves the score 15 → -5 and overwrites the
record with critical_error, while `pf_identify_threat` rejects it. -/
theorem c8_resubmission_witness :
    pf_identify_threat c8Room "24015G25KT" ⟨"alice", "PF", false, none⟩ =
      .returnedFalse ∧
    (pf_submit_decision c8Room "24015G25KT" "ignore_wind"
      ⟨"alice", "PF", false, none⟩).1 = .returnedTrue ∧
    (pm_verify_decision (pf_submit_decision c8Room "24015G25KT"
        "ignore_wind" ⟨"alice", "PF", false, none⟩).2.1 true
      ⟨"bob", "PM", false, none⟩).2.1.score = -5 ∧
    alookup (pm_verify_decision (pf_submit_decision c8Room "24015G25KT"
          "ignore_wind" ⟨"alice", "PF", false, none⟩).2.1 true
        ⟨"bob", "PM", false, none⟩).2.1.phase1_threats "24015G25KT" =
      some ⟨"忽略侧风影响，正常起飞", false, true, "critical_error", -20⟩ := by
  have h := c8_resubmission c8Room "24015G25KT" "ignore_wind"
    ⟨"alice", "PF", false, none⟩ ⟨"bob", "PM", false, none⟩ true
    ⟨[⟨"standard_procedure", "使用侧风起飞标准程序", true⟩,
      ⟨"wait_wind", "等待风况改善后起飞", true⟩,
      ⟨"ignore_wind", "忽略侧风影响，正常起飞", false⟩],
     ⟨15, -5, -20, 5⟩⟩
    ⟨"ignore_wind", "忽略侧风影响，正常起飞", false⟩
    ⟨"使用侧风起飞标准程序", true, true, "success", 15⟩
    (by decide) (by decide) (by decide) rfl rfl rfl rfl
  refine ⟨h.1, h.2.1, ?_, ?_⟩
  · rw [h.2.2.2.1]
    decide
  · rw [h.2.2.2.2]
    decide

/-! ### Frame lemmas for the phase-transition claim -/

theorem processNext_phase (room : Room) :
    (processNextDecisionInQueue room).1.current_phase =
      room.current_phase := by
  rw [processNext_eq]
  rcases hq : room.pending_decisions_queue with _ | ⟨d, rest⟩ <;> simp

theorem pf_submit_phase (room : Room) (k o : String) (a : Actor) :
    (pf_submit_decision room k o a).2.1.current_phase =
      room.current_phase := by
  unfold pf_submit_decision
  split
  · rfl
  · split
    · rfl
    · split
      · rfl
      · dsimp only
        split
        · rw [processNext_phase]
        · rfl

theorem pm_verify_phase (room : Room) (ap : Bool) (a : Actor) :
    (pm_verify_decision room ap a).2.1.current_phase =
      room.current_phase := by
  unfold pm_verify_decision
  split
  · rfl
  · split
    · rfl
    · split
      · rfl
      · dsimp only
        rw [processNext_phase]

theorem monitor_phase (room : Room) (g : String) (a : Actor) :
    (monitor_gauge room g a).2.current_phase = room.current_phase := by
  unfold monitor_gauge
  rcases alookup GAUGE_CONFIGS g with _ | cfg <;> rfl

theorem on_join_phase (ae : Bool) (rid : String) (room : Room)
    (sid u r m : String) :
    (on_join ae rid (some room) sid u r m).1.current_phase =
        room.current_phase ∨
    (on_join ae rid (some room) sid u r m).1.current_phase = "phase1" := by
  unfold on_join
  dsimp only [Option.getD]
  split
  · right
    dsimp only
    split <;> rfl
  · split
    · left; rfl
    · dsimp only
      split
      · right; rfl
      · left; rfl

theorem start_sim_phase (room : Room) (s : ScenarioRef) :
    (start_simulation room s).current_phase = room.current_phase ∨
    (start_simulation room s).current_phase = "phase2" := by
  unfold start_simulation
  split
  · left; rfl
  · right; rfl

theorem select_qrh_used (room : Room) (k : String) (a : Actor)
    (h : k ∈ room.used_qrh) :
    select_qrh room k a = (.returnedFalse, room) := by
  unfold select_qrh
  rw [if_pos h]

theorem select_qrh_fresh_phase (room : Room) (k : String) (a : Actor)
    (h : k ∉ room.used_qrh) :
    (select_qrh room k a).2.current_phase = "phase3" := by
  unfold select_qrh
  rw [if_neg h]
  rcases alookup QRH_LIBRARY k with _ | q
  · rfl
  · rcases room.current_scenario with _ | s <;> rfl

/-- C10: every `select_qrh` call that passes the duplicate check sets the
room's phase to phase3 — with no precondition on the room being in phase2
(a selection during phase1 or waiting also moves it) — and among all the
room-mutating operations it is the only one that ever introduces phase3. -/
theorem c10_select_qrh_sets_phase3 (room : Room) (op : GameOp) :
    ((applyOp room op).current_phase = "phase3" →
      room.current_phase ≠ "phase3" →
      ∃ key a, op = GameOp.selectQrh key a ∧ key ∉ room.used_qrh) ∧
    (∀ key a, key ∉ room.used_qrh →
      (applyOp room (GameOp.selectQrh key a)).current_phase = "phase3") := by
  constructor
  · intro h3 hpre
    cases op with
    | join ae rid sid u r m =>
        simp only [applyOp] at h3
        rcases on_join_phase ae rid room sid u r m with h | h
        · exact absurd (h ▸ h3) hpre
        · rw [h3] at h
          exact absurd h (by decide)
    | startSim s =>
        simp only [applyOp] at h3
        rcases start_sim_phase room s with h | h
        · exact absurd (h ▸ h3) hpre
        · rw [h3] at h
          exact absurd h (by decide)
    | identify k a => exact absurd h3 hpre
    | submit k o a =>
        simp only [applyOp] at h3
        rw [pf_submit_phase] at h3
        exact absurd h3 hpre
    | verify ap a =>
        simp only [applyOp] at h3
        rw [pm_verify_phase] at h3
        exact absurd h3 hpre
    | monitor g a =>
        simp only [applyOp] at h3
        rw [monitor_phase] at h3
        exact absurd h3 hpre
    | checkItem i a => exact absurd h3 hpre
    | selectQrh k a =>
        by_cases hk : k ∈ room.used_qrh
        · simp only [applyOp, select_qrh_used room k a hk] at h3
          exact absurd h3 hpre
        · exact ⟨k, a, rfl, hk⟩
  · intro k a hk
    simp only [applyOp]
    exact select_qrh_fresh_phase room k a hk

/-! ### Join capacity lemmas -/

/-- One dual-player join into a room that already holds two or more users:
no mutation, `room_full` reply. -/
theorem on_join_dual_full (ae : Bool) (rid : String) (room : Room)
    (sid u r : String) (h : room.users.length ≥ 2) :
    on_join ae rid (some room) sid u r "dual_player" = (room, true) := by
  unfold on_join
  dsimp only [Option.getD]
  rw [if_neg (fun hc => absurd hc.1 (by decide)), if_pos h]

/-- One dual-player join preserves the two-user cap. -/
theorem on_join_dual_cap (ae : Bool) (rid : String) (room : Room)
    (sid u r : String) (h : room.users.length ≤ 2) :
    (on_join ae rid (some room) sid u r "dual_player").1.users.length ≤ 2 := by
  unfold on_join
  dsimp only [Option.getD]
  rw [if_neg (fun hc => absurd hc.1 (by decide))]
  by_cases hf : room.users.length ≥ 2
  · rw [if_pos hf]
    exact h
  · rw [if_neg hf]
    have hlt : room.users.length + 1 ≤ 2 := by omega
    dsimp only
    split <;>
      exact le_trans (length_setKey_le room.users sid ⟨u, r, false⟩) hlt

theorem runDualJoins_cap_aux (ae : Bool) (rid : String)
    (js : List (String × String × String)) (room : Room)
    (h : room.users.length ≤ 2) :
    (js.foldl (fun r j => (on_join ae rid (some r) j.1 j.2.1 j.2.2
      "dual_player").1) room).users.length ≤ 2 := by
  induction js generalizing room with
  | nil => simpa using h
  | cons j rest ih =>
      simp only [List.foldl_cons]
      exact ih _ (on_join_dual_cap ae rid room j.1 j.2.1 j.2.2 h)

/-- Counterexample to C4 as stated: (a) two dual-player joins both carrying
role PF are accepted, so the roles of the room's users are not
duplicate-free; (b) a `single_player` join arriving when the room already
holds 2 users is not answered with `room_full` — it seats the human and an
AI user, leaving 4 users in the room. -/
theorem c4_counterexample :
    ((runDualJoins true "r1"
        [("s1", "alice", "PF"), ("s2", "bob", "PF")]).users.map
      (fun p => p.2.role) = ["PF", "PF"]) ∧
    (on_join true "r1"
      (some (runDualJoins true "r1"
        [("s1", "alice", "PF"), ("s2", "bob", "PF")]))
      "s3" "carol" "PF" "single_player").1.users.length = 4 ∧
    (on_join true "r1"
      (some (runDualJoins true "r1"
        [("s1", "alice", "PF"), ("s2", "bob", "PF")]))
      "s3" "carol" "PF" "single_player").2 = false := by
  refine ⟨by decide, by decide, by decide⟩

/-- C4 amended: the 2-user cap is enforced only on the dual-player path —
a dual-player join into a room holding ≥ 2 users adds no user and answers
`room_full`, and any sequence of dual-player joins keeps `|users| ≤ 2`.
Roles are taken from the request unvalidated (duplicates and values
outside PF/PM are possible), and a `single_player` join bypasses the
capacity check, seating the human and an AI regardless of occupancy. -/
theorem c4_dual_capacity_amended :
    (∀ ae rid room sid u r, room.users.length ≥ 2 →
      on_join ae rid (some room) sid u r "dual_player" = (room, true)) ∧
    (∀ ae rid js, (runDualJoins ae rid js).users.length ≤ 2) := by
  constructor
  · intro ae rid room sid u r h
    exact on_join_dual_full ae rid room sid u r h
  · intro ae rid js
    exact runDualJoins_cap_aux ae rid js initRoom (by simp [initRoom])

/-- Room after alice (PF) and bob (PM) joined in dual-player mode. -/
def c4FullRoom : Room :=
  runDualJoins true "r1" [("s1", "alice", "PF"), ("s2", "bob", "PM")]

/-- Witness for the amended C4: a third dual-player join into the full
room is rejected with `room_full` and mutates nothing; a three-join
dual-player sequence still ends with at most 2 users. -/
theorem c4_dual_capacity_amended_witness :
    on_join true "r1" (some c4FullRoom) "s3" "carol" "PM" "dual_player" =
      (c4FullRoom, true) ∧
    (runDualJoins true "r1"
      [("s1", "alice", "PF"), ("s2", "bob", "PM"),
       ("s3", "carol", "PM")]).users.length ≤ 2 :=
  ⟨c4_dual_capacity_amended.1 true "r1" c4FullRoom "s3" "carol" "PM"
     (by decide),
   c4_dual_capacity_amended.2 true "r1" _⟩

/-- Witness for C10: selecting a checklist while still in phase1 (no
scenario loaded, nothing in `used_qrh`) already moves the room to
phase3. -/
theorem c10_select_qrh_sets_phase3_witness :
    (applyOp { initRoom with current_phase := "phase1" }
      (GameOp.selectQrh "engine_fire"
        ⟨"bob", "PM", false, none⟩)).current_phase = "phase3" :=
  (c10_select_qrh_sets_phase3 { initRoom with current_phase := "phase1" }
      (GameOp.selectQrh "engine_fire" ⟨"bob", "PM", false, none⟩)).2
    "engine_fire" ⟨"bob", "PM", false, none⟩ (by decide)

/-! ### Detection-state lemmas for the simulation loop -/

/-- A tick slice never disturbs an existing `event_detections` entry
(of any event). -/
theorem tickEvent_preserves_detection (ev : EventData) (t : Rat)
    (s : SimState) (id : String) (d : Detection)
    (h : alookup s.event_detections id = some d) :
    alookup (tickEvent ev t s).event_detections id = some d := by
  unfold tickEvent
  split
  · split
    · split
      · next hc =>
          have hne : ev.id ≠ id := by
            intro hcc
            rw [hcc, h] at hc
            exact absurd hc.2 (by simp)
          dsimp only
          rw [alookup_setKey_ne _ _ _ _ hne]
          exact h
      · exact h
    · split
      · dsimp only
        split
        · next hn =>
            have hne : ev.id ≠ id := by
              intro hcc
              rw [hcc, h] at hn
              exact absurd hn (by simp)
            dsimp only
            rw [alookup_setKey_ne _ _ _ _ hne]
            exact h
        · exact h
      · exact h
  · exact h

/-- Once an event has a detection entry, a tick slice for that event
changes neither `event_detections` nor the score. -/
theorem tickEvent_detected_frozen (ev : EventData) (t : Rat) (s : SimState)
    (d : Detection) (h : alookup s.event_detections ev.id = some d) :
    (tickEvent ev t s).event_detections = s.event_detections ∧
    (tickEvent ev t s).score = s.score := by
  unfold tickEvent
  split
  · split
    · split
      · next hc =>
          rw [h] at hc
          exact absurd hc.2 (by simp)
      · exact ⟨rfl, rfl⟩
    · split
      · dsimp only
        split
        · next hn =>
            rw [h] at hn
            exact absurd hn (by simp)
        · exact ⟨rfl, rfl⟩
      · exact ⟨rfl, rfl⟩
  · exact ⟨rfl, rfl⟩

/-- Write characterization of a tick slice on an event with no detection
entry yet: precursor window with the gauge monitored writes
`(precursor, t)` and credits `detection_score`; the first alert tick
(alerted flag still false) writes `(alert, t)` and credits
`reaction_score`; in the listed remaining situations nothing is written
and the score is unchanged. -/
theorem tickEvent_writes (ev : EventData) (t : Rat) (s : SimState)
    (h : alookup s.event_detections ev.id = none) :
    ((ev.precursor_start ≤ t ∧ t < ev.event_end ∧ t < ev.alert_start ∧
        ev.gauge ∈ s.monitored_gauges) →
      alookup (tickEvent ev t s).event_detections ev.id =
        some ⟨"precursor", t⟩ ∧
      (tickEvent ev t s).score = s.score + ev.detection_score) ∧
    ((ev.precursor_start ≤ t ∧ t < ev.event_end ∧ ¬(t < ev.alert_start) ∧
        (alookup s.event_alerted ev.id).getD false = false) →
      alookup (tickEvent ev t s).event_detections ev.id =
        some ⟨"alert", t⟩ ∧
      (tickEvent ev t s).score = s.score + ev.reaction_score) ∧
    ((¬(ev.precursor_start ≤ t ∧ t < ev.event_end) ∨
        (t < ev.alert_start ∧ ev.gauge ∉ s.monitored_gauges) ∨
        (¬(t < ev.alert_start) ∧
          (alookup s.event_alerted ev.id).getD false = true)) →
      alookup (tickEvent ev t s).event_detections ev.id = none ∧
      (tickEvent ev t s).score = s.score) := by
  refine ⟨?_, ?_, ?_⟩
  · rintro ⟨h1, h2, h3, h4⟩
    unfold tickEvent
    rw [if_pos ⟨h1, h2⟩, if_pos h3, if_pos ⟨h4, h⟩]
    exact ⟨alookup_setKey_self _ _ _, rfl⟩
  · rintro ⟨h1, h2, h3, h5⟩
    unfold tickEvent
    rw [if_pos ⟨h1, h2⟩, if_neg h3, if_pos h5]
    dsimp only
    rw [if_pos h]
    exact ⟨alookup_setKey_self _ _ _, rfl⟩
  · rintro (h1 | ⟨h2, h3⟩ | ⟨h4, h5⟩) <;>
      · unfold tickEvent
        split_ifs <;> first
          | exact ⟨h, rfl⟩
          | simp_all

theorem tickAll_preserves_detection (events : List EventData) (t : Rat)
    (s : SimState) (id : String) (d : Detection)
    (h : alookup s.event_detections id = some d) :
    alookup (tickAll events t s).event_detections id = some d := by
  induction events generalizing s with
  | nil => exact h
  | cons ev rest ih =>
      exact ih _ (tickEvent_preserves_detection ev t s id d h)

theorem simRun_preserves_detection (events : List EventData)
    (ops : List SimOp) (s : SimState) (id : String) (d : Detection)
    (h : alookup s.event_detections id = some d) :
    alookup (simRun events s ops).event_detections id = some d := by
  induction ops generalizing s with
  | nil => exact h
  | cons op rest ih =>
      refine ih _ ?_
      cases op with
      | tick t => exact tickAll_preserves_detection events t s id d h
      | monitor g => exact h

/-- C3: over the whole simulation (loop ticks interleaved with
`monitor_gauge` insertions), an `event_detections` entry, once written, is
never modified or overwritten; while an event has an entry, its tick slice
adds no further score; and for an event without an entry, the entry is
written with `precursor` (crediting `detection_score`) exactly on a
precursor-window tick whose gauge is monitored, with `alert` (crediting
`reaction_score`) exactly on the first alert-window tick, and is not
written otherwise — so the entry records the first qualifying moment. -/
theorem c3_detection_written_once :
    (∀ (events : List EventData) (ops : List SimOp) (s : SimState)
        (id : String) (d : Detection),
      alookup s.event_detections id = some d →
      alookup (simRun events s ops).event_detections id = some d) ∧
    (∀ (ev : EventData) (t : Rat) (s : SimState) (d : Detection),
      alookup s.event_detections ev.id = some d →
      (tickEvent ev t s).event_detections = s.event_detections ∧
      (tickEvent ev t s).score = s.score) ∧
    (∀ (ev : EventData) (t : Rat) (s : SimState),
      alookup s.event_detections ev.id = none →
      (((ev.precursor_start ≤ t ∧ t < ev.event_end ∧ t < ev.alert_start ∧
          ev.gauge ∈ s.monitored_gauges) →
        alookup (tickEvent ev t s).event_detections ev.id =
          some ⟨"precursor", t⟩ ∧
        (tickEvent ev t s).score = s.score + ev.detection_score) ∧
       ((ev.precursor_start ≤ t ∧ t < ev.event_end ∧
          ¬(t < ev.alert_start) ∧
          (alookup s.event_alerted ev.id).getD false = false) →
        alookup (tickEvent ev t s).event_detections ev.id =
          some ⟨"alert", t⟩ ∧
        (tickEvent ev t s).score = s.score + ev.reaction_score) ∧
       ((¬(ev.precursor_start ≤ t ∧ t < ev.event_end) ∨
          (t < ev.alert_start ∧ ev.gauge ∉ s.monitored_gauges) ∨
          (¬(t < ev.alert_start) ∧
            (alookup s.event_alerted ev.id).getD false = true)) →
        alookup (tickEvent ev t s).event_detections ev.id = none ∧
        (tickEvent ev t s).score = s.score))) :=
  ⟨simRun_preserves_detection,
   tickEvent_detected_frozen,
   tickEvent_writes⟩

/-- The fuel-imbalance event of the routine_flight scenario. -/
def fuelEvent : EventData :=
  ⟨"fuel_imbalance", "燃油不平衡", 20, 35, 60, "fuel_qty", "asymmetric",
   20, 5⟩

/-- The vacuum-failure event of the routine_flight scenario. -/
def vacEvent : EventData :=
  ⟨"vacuum_failure", "真空系统失效", 100, 115, 150, "vacuum",
   "gradual_drop", 20, 5⟩

/-- Loop state at the start of routine_flight with `fuel_qty` monitored. -/
def c3State : SimState :=
  { monitored_gauges := ["fuel_qty"], event_detections := [], score := 0,
    event_alerted := [("fuel_imbalance", false), ("vacuum_failure", false)] }

/-- Witness for C3: at t=25 (precursor window, gauge monitored) the
fuel-imbalance entry is written as (precursor, 25) and 20 points are
credited, and it survives later ticks at t=30 and t=40 unchanged. -/
theorem c3_detection_written_once_witness :
    alookup (tickEvent fuelEvent 25 c3State).event_detections
      "fuel_imbalance" = some ⟨"precursor", 25⟩ ∧
    (tickEvent fuelEvent 25 c3State).score = 20 ∧
    alookup (simRun [fuelEvent, vacEvent] (tickEvent fuelEvent 25 c3State)
        [SimOp.tick 30, SimOp.tick 40]).event_detections "fuel_imbalance" =
      some ⟨"precursor", 25⟩ := by
  have hw := (c3_detection_written_once.2.2 fuelEvent 25 c3State rfl).1
    (by refine ⟨by norm_num [fuelEvent], by norm_num [fuelEvent],
          by norm_num [fuelEvent], by decide⟩)
  refine ⟨hw.1, by rw [hw.2]; decide, ?_⟩
  exact c3_detection_written_once.1 [fuelEvent, vacEvent]
    [SimOp.tick 30, SimOp.tick 40] _ "fuel_imbalance" ⟨"precursor", 25⟩ hw.1

/-! ### Decision-queue invariant -/

/-- Trace invariant: the users are fixed, the prompted decisions are
exactly the verified ones followed by the currently pending one, and the
successfully submitted decisions are the prompted ones followed by the
queue contents — all in order. -/
def P1Inv (users0 : List (String × UserInfo)) (t : P1Trace) : Prop :=
  t.room.users = users0 ∧
  t.submitted = t.verified ++ optList t.room.pending_decision ++
    t.room.pending_decisions_queue ∧
  t.prompts = t.verified ++ optList t.room.pending_decision

theorem p1StepT_inv (users0 : List (String × UserInfo)) (sid : String)
    (hpm : humanPM users0 = some sid) (t : P1Trace) (op : P1Op)
    (h : P1Inv users0 t) : P1Inv users0 (p1StepT t op) := by
  obtain ⟨hu, hsub, hpr⟩ := h
  have hpmu : humanPM t.room.users = some sid := by rw [hu]; exact hpm
  cases op with
  | submit k o a =>
      unfold p1StepT
      dsimp only
      by_cases hrole : a.role ≠ "PF"
      · have e1 : pf_submit_decision t.room k o a =
            (.returnedFalse, t.room, []) := by
          unfold pf_submit_decision
          rw [if_pos hrole]
        have e2 : submitEnqueued k o a = [] := by
          unfold submitEnqueued
          rw [if_pos hrole]
        rw [e1, e2]
        exact ⟨hu, by simpa using hsub, by simpa using hpr⟩
      · rcases halo : alookup PHASE1_THREATS k with _ | threat
        · have e1 : pf_submit_decision t.room k o a =
              (.errored, t.room, []) := by
            unfold pf_submit_decision
            rw [if_neg hrole]
            simp only [halo]
          have e2 : submitEnqueued k o a = [] := by
            unfold submitEnqueued
            rw [if_neg hrole]
            simp only [halo]
          rw [e1, e2]
          exact ⟨hu, by simpa using hsub, by simpa using hpr⟩
        · rcases hfind : List.find? (fun o1 => o1.id == o) threat.options
            with _ | opt
          · have e1 : pf_submit_decision t.room k o a =
                (.returnedFalse, t.room, []) := by
              unfold pf_submit_decision
              rw [if_neg hrole]
              simp only [halo, hfind]
            have e2 : submitEnqueued k o a = [] := by
              unfold submitEnqueued
              rw [if_neg hrole]
              simp only [halo, hfind]
            rw [e1, e2]
            exact ⟨hu, by simpa using hsub, by simpa using hpr⟩
          · have e2 : submitEnqueued k o a =
                [⟨k, o, opt.text, opt.correct, a.username⟩] := by
              unfold submitEnqueued
              rw [if_neg hrole]
              simp only [halo, hfind]
            by_cases hpend : t.room.pending_decision = none
            · have e1 : pf_submit_decision t.room k o a =
                  (.returnedTrue,
                   (processNextDecisionInQueue { t.room with
                     pending_decisions_queue :=
                       t.room.pending_decisions_queue ++
                         [⟨k, o, opt.text, opt.correct, a.username⟩] }).1,
                   (processNextDecisionInQueue { t.room with
                     pending_decisions_queue :=
                       t.room.pending_decisions_queue ++
                         [⟨k, o, opt.text, opt.correct, a.username⟩] }).2) := by
                unfold pf_submit_decision
                rw [if_neg hrole]
                simp only [halo, hfind]
                dsimp only
                rw [if_pos hpend]
              rw [e1, e2]
              rw [processNext_eq, processNext_prompts]
              dsimp only
              rw [hpmu]
              rw [hpend] at hsub hpr
              rcases hq : t.room.pending_decisions_queue with _ | ⟨q0, rest⟩
              · rw [hq] at hsub
                simp only [List.nil_append]
                exact ⟨hu, by simp [optList, hsub], by simp [optList, hpr]⟩
              · rw [hq] at hsub
                simp only [List.cons_append]
                refine ⟨hu, ?_, ?_⟩
                · simp [optList, hsub]
                · simp [optList, hpr]
            · have e1 : pf_submit_decision t.room k o a =
                  (.returnedTrue,
                   { t.room with
                     pending_decisions_queue :=
                       t.room.pending_decisions_queue ++
                         [⟨k, o, opt.text, opt.correct, a.username⟩] },
                   []) := by
                unfold pf_submit_decision
                rw [if_neg hrole]
                simp only [halo, hfind]
                dsimp only
                rw [if_neg hpend]
              rw [e1, e2]
              rcases hp : t.room.pending_decision with _ | p
              · exact absurd hp hpend
              · rw [hp] at hsub
                refine ⟨hu, ?_, by simpa using hpr⟩
                simp [optList, hsub, List.append_assoc, hp]
  | verify ap a =>
      unfold p1StepT
      dsimp only
      by_cases hrole : a.role ≠ "PM"
      · have e1 : pm_verify_decision t.room ap a =
            (.returnedFalse, t.room, []) := by
          unfold pm_verify_decision
          rw [if_pos hrole]
        have e2 : verifyConsumed t.room a = [] := by
          unfold verifyConsumed
          rw [if_pos hrole]
        rw [e1, e2]
        exact ⟨hu, by simpa using hsub, by simpa using hpr⟩
      · rcases hpend : t.room.pending_decision with _ | p
        · have e1 : pm_verify_decision t.room ap a =
              (.returnedFalse, t.room, []) := by
            unfold pm_verify_decision
            rw [if_neg hrole]
            simp only [hpend]
          have e2 : verifyConsumed t.room a = [] := by
            unfold verifyConsumed
            rw [if_neg hrole]
            simp only [hpend]
          rw [e1, e2]
          exact ⟨hu, by simpa using hsub, by simpa using hpr⟩
        · rcases halo : alookup PHASE1_THREATS p.keyword with _ | threat
          · have e1 : pm_verify_decision t.room ap a =
                (.errored, t.room, []) := by
              unfold pm_verify_decision
              rw [if_neg hrole]
              simp only [hpend, halo]
            have e2 : verifyConsumed t.room a = [] := by
              unfold verifyConsumed
              rw [if_neg hrole]
              simp only [hpend, halo]
              simp
            rw [e1, e2]
            exact ⟨hu, by simpa using hsub, by simpa using hpr⟩
          · have e2 : verifyConsumed t.room a = [p] := by
              unfold verifyConsumed
              rw [if_neg hrole]
              simp only [hpend, halo]
              simp
            have e1 : pm_verify_decision t.room ap a =
                (.returnedTrue,
                 (processNextDecisionInQueue { t.room with
                   score := t.room.score +
                     (verifyOutcome p.is_correct ap threat.scores).1,
                   phase1_threats := setKey t.room.phase1_threats p.keyword
                     ⟨p.option_text, p.is_correct, ap,
                      (verifyOutcome p.is_correct ap threat.scores).2,
                      (verifyOutcome p.is_correct ap threat.scores).1⟩,
                   pending_decision := none }).1,
                 (processNextDecisionInQueue { t.room with
                   score := t.room.score +
                     (verifyOutcome p.is_correct ap threat.scores).1,
                   phase1_threats := setKey t.room.phase1_threats p.keyword
                     ⟨p.option_text, p.is_correct, ap,
                      (verifyOutcome p.is_correct ap threat.scores).2,
                      (verifyOutcome p.is_correct ap threat.scores).1⟩,
                   pending_decision := none }).2) := by
              unfold pm_verify_decision
              rw [if_neg hrole]
              simp only [hpend, halo]
            rw [e1, e2]
            rw [processNext_eq, processNext_prompts]
            dsimp only
            rw [hpmu]
            rw [hpend] at hsub hpr
            rcases hq : t.room.pending_decisions_queue with _ | ⟨q0, rest⟩
            · rw [hq] at hsub
              exact ⟨hu,
                by simp [optList, hsub, List.append_assoc],
                by simp [optList, hpr]⟩
            · rw [hq] at hsub
              exact ⟨hu,
                by simp [optList, hsub, List.append_assoc],
                by simp [optList, hpr, List.append_assoc]⟩

theorem p1RunT_inv (users0 : List (String × UserInfo)) (sid : String)
    (hpm : humanPM users0 = some sid) (ops : List P1Op) (t : P1Trace)
    (h : P1Inv users0 t) : P1Inv users0 (p1RunT t ops) := by
  induction ops generalizing t with
  | nil => exact h
  | cons op rest ih =>
      exact ih _ (p1StepT_inv users0 sid hpm t op h)

/-- C2: over any interleaving of `pf_submit_decision` and
`pm_verify_decision` calls on a fresh room with a seated human PM, at most
one decision is ever pending, the successfully submitted decisions are
exactly the prompted ones (in submission order) followed by the queued
ones (in submission order), and once nothing is pending and the queue is
drained, exactly one verify-prompt was emitted per submitted decision, in
submission order. -/
theorem c2_decision_queue_fifo (users0 : List (String × UserInfo))
    (sid : String) (ops : List P1Op)
    (hpm : humanPM users0 = some sid) :
    (optList (p1RunT (initP1Trace users0)
      ops).room.pending_decision).length ≤ 1 ∧
    (p1RunT (initP1Trace users0) ops).submitted =
      (p1RunT (initP1Trace users0) ops).prompts ++
        (p1RunT (initP1Trace users0) ops).room.pending_decisions_queue ∧
    ((p1RunT (initP1Trace users0) ops).room.pending_decision = none →
      (p1RunT (initP1Trace users0) ops).room.pending_decisions_queue = [] →
      (p1RunT (initP1Trace users0) ops).prompts =
        (p1RunT (initP1Trace users0) ops).submitted) := by
  have h := p1RunT_inv users0 sid hpm ops (initP1Trace users0)
    ⟨rfl, rfl, rfl⟩
  obtain ⟨hu, hsub, hpr⟩ := h
  refine ⟨?_, ?_, ?_⟩
  · rcases (p1RunT (initP1Trace users0) ops).room.pending_decision <;>
      simp [optList]
  · rw [hsub, hpr, List.append_assoc]
  · intro h1 h2
    rw [hsub, hpr, h1, h2]
    simp [optList]

/-- Dual-human seating: alice is PF, bob is the human PM. -/
def c2Users : List (String × UserInfo) :=
  [("s1", ⟨"alice", "PF", false⟩), ("s2", ⟨"bob", "PM", false⟩)]

/-- Two back-to-back PF submissions followed by two PM verifications. -/
def c2Ops : List P1Op :=
  [P1Op.submit "24015G25KT" "standard_procedure"
     ⟨"alice", "PF", false, none⟩,
   P1Op.submit "Landing_Light_U/S" "check_mel"
     ⟨"alice", "PF", false, none⟩,
   P1Op.verify true ⟨"bob", "PM", false, none⟩,
   P1Op.verify true ⟨"bob", "PM", false, none⟩]

/-- Witness for C2 on a concrete two-submission trace. -/
theorem c2_decision_queue_fifo_witness :
    (optList (p1RunT (initP1Trace c2Users)
      c2Ops).room.pending_decision).length ≤ 1 ∧
    (p1RunT (initP1Trace c2Users) c2Ops).submitted =
      (p1RunT (initP1Trace c2Users) c2Ops).prompts ++
        (p1RunT (initP1Trace c2Users) c2Ops).room.pending_decisions_queue ∧
    ((p1RunT (initP1Trace c2Users) c2Ops).room.pending_decision = none →
      (p1RunT (initP1Trace c2Users) c2Ops).room.pending_decisions_queue =
        [] →
      (p1RunT (initP1Trace c2Users) c2Ops).prompts =
        (p1RunT (initP1Trace c2Users) c2Ops).submitted) :=
  c2_decision_queue_fifo c2Users "s2" c2Ops (by decide)

end TEM
